import Mathlib

/-!
Verification of the training orchestration in `playground/model/train.py`.

Numeric values that the Python code handles as floats are modelled as exact
rationals (`ℚ`); real-valued activation functions are modelled over `ℝ`.
Keras objects (models, layers, callbacks, datasets) are modelled structurally
as records carrying exactly the configuration the source passes to them.
-/

set_option autoImplicit false

namespace Playground

/-! ### Best-epoch selection (train.py lines 122-124)

`val_auc_per_epoch = history.history["val_auc"]`
`best_epoch = np.argmax(val_auc_per_epoch) + 1`

`np.argmax` returns the index of the first occurrence of the maximum value.
-/

/-- Maximum of a list of rationals (`np.max` semantics on a non-empty array;
the `[]` case is a junk value, `np.argmax` raises on an empty array). -/
def listMax : List ℚ → ℚ
  | [] => 0
  | [x] => x
  | x :: y :: ys => max x (listMax (y :: ys))

/-- Index of the first occurrence of the maximum value (`np.argmax`). -/
def argmax : List ℚ → ℕ
  | [] => 0
  | [_] => 0
  | x :: y :: ys => if listMax (y :: ys) ≤ x then 0 else argmax (y :: ys) + 1

/-- `best_epoch = np.argmax(val_auc_per_epoch) + 1` (train.py line 123). -/
def best_epoch (val_auc_per_epoch : List ℚ) : ℕ :=
  argmax val_auc_per_epoch + 1

/-- Element at index `i`, with a default of `0` out of range. -/
def nth (l : List ℚ) (i : ℕ) : ℚ :=
  l.getD i 0

lemma le_listMax {l : List ℚ} {x : ℚ} (hx : x ∈ l) : x ≤ listMax l := by
  induction l with
  | nil => cases hx
  | cons a t ih =>
    cases t with
    | nil =>
      rcases List.mem_cons.mp hx with h | h
      · simp [listMax, h]
      · cases h
    | cons b u =>
      rcases List.mem_cons.mp hx with h | h
      · simp [listMax, h]
      · exact le_trans (ih h) (le_max_right _ _)

lemma argmax_lt_length {l : List ℚ} (h : l ≠ []) : argmax l < l.length := by
  induction l with
  | nil => exact absurd rfl h
  | cons a t ih =>
    cases t with
    | nil => simp [argmax]
    | cons b u =>
      by_cases hc : listMax (b :: u) ≤ a
      · simp [argmax, hc]
      · have h1 := ih (by simp)
        simp only [List.length_cons] at h1
        simp only [argmax, hc, if_false, List.length_cons]
        omega

lemma nth_argmax {l : List ℚ} (h : l ≠ []) : nth l (argmax l) = listMax l := by
  induction l with
  | nil => exact absurd rfl h
  | cons a t ih =>
    cases t with
    | nil => simp [argmax, listMax, nth]
    | cons b u =>
      by_cases hc : listMax (b :: u) ≤ a
      · simp [argmax, listMax, hc, nth, max_eq_left hc]
      · have hih := ih (by simp)
        push_neg at hc
        simp only [argmax, listMax, not_le.mpr hc, if_false]
        simp only [nth, List.getD_cons_succ] at hih ⊢
        rw [hih, max_eq_right (le_of_lt hc)]

lemma nth_lt_listMax_of_lt_argmax {l : List ℚ} {j : ℕ} (hj : j < argmax l) :
    nth l j < listMax l := by
  induction l generalizing j with
  | nil => simp [argmax] at hj
  | cons a t ih =>
    cases t with
    | nil => simp [argmax] at hj
    | cons b u =>
      by_cases hc : listMax (b :: u) ≤ a
      · simp [argmax, hc] at hj
      · push_neg at hc
        simp only [argmax, not_le.mpr hc, if_false] at hj
        cases j with
        | zero =>
          simpa [nth, listMax, max_eq_right (le_of_lt hc)] using hc
        | succ j =>
          have h1 := @ih j (by omega)
          simpa [nth, listMax, max_eq_right (le_of_lt hc)] using h1

/-! ### Hyperparameter space (train.py lines 18-31 and 57)

`get_hidden` registers `layers = hp.Int("layers", 1, 3)`,
`first_layer_units = hp.Choice("first_layer_units", [32,64,128,512,1024,2048])`,
`dropout = hp.Float("dropout", 0.0, 0.5, step=0.1)`,
`activation = hp.Choice("activation", ["relu","tanh","sigmoid","elu","selu"])`,
`regularization = hp.Choice("regularization", ["l1","l2","l1_l2","none"])`,
and `build_model` registers `lr = hp.Float("lr", 1e-5, 1e-2, sampling="log")`.
-/

/-- One searchable dimension, as registered through the `hp` object. -/
inductive HPDomain where
  | intRange (lo hi : ℤ)
  | choiceNat (values : List ℕ)
  | choiceStr (values : List String)
  | floatStep (lo hi step : ℚ)
  | floatLog (lo hi : ℚ)
deriving DecidableEq

/-- The six dimensions registered by `get_hidden` and `build_model`, in
registration order. -/
def searchSpace : List (String × HPDomain) :=
  [("layers", HPDomain.intRange 1 3),
   ("first_layer_units", HPDomain.choiceNat [32, 64, 128, 512, 1024, 2048]),
   ("dropout", HPDomain.floatStep 0 (1/2) (1/10)),
   ("activation", HPDomain.choiceStr ["relu", "tanh", "sigmoid", "elu", "selu"]),
   ("regularization", HPDomain.choiceStr ["l1", "l2", "l1_l2", "none"]),
   ("lr", HPDomain.floatLog (1/100000) (1/100))]

/-- The values a stepped float dimension can take: `lo, lo+step, ...` up to
`hi` (keras-tuner samples stepped floats from this grid). -/
def floatStepValues (lo hi step : ℚ) : List ℚ :=
  (List.range (((hi - lo) / step).floor.toNat + 1)).map (fun k => lo + (k : ℚ) * step)

/-- Lines 30-31: `if regularization == "none": regularization = None`; the
resulting value is handed to `Dense` as both regularizers. -/
def regularizerOf (regularization : String) : Option String :=
  if regularization = "none" then Option.none else some regularization

/-- A concrete hyperparameter assignment (values of the six dimensions). -/
structure HyperParameters where
  layers : ℕ
  first_layer_units : ℕ
  dropout : ℚ
  activation : String
  regularization : String
  lr : ℚ
deriving DecidableEq

/-- Membership of an assignment in the declared sampling domains. -/
def inDomain (hp : HyperParameters) : Prop :=
  1 ≤ hp.layers ∧ hp.layers ≤ 3 ∧
  hp.first_layer_units ∈ [32, 64, 128, 512, 1024, 2048] ∧
  hp.dropout ∈ floatStepValues 0 (1/2) (1/10) ∧
  hp.activation ∈ ["relu", "tanh", "sigmoid", "elu", "selu"] ∧
  hp.regularization ∈ ["l1", "l2", "l1_l2", "none"] ∧
  1/100000 ≤ hp.lr ∧ hp.lr ≤ 1/100

instance (hp : HyperParameters) : Decidable (inDomain hp) := by
  unfold inDomain
  infer_instance

/-! ### Model architecture (train.py lines 18-64)

A `Dense` layer and the dense+dropout blocks stacked by `get_hidden` are
modelled by the configuration records the code passes to Keras. -/

/-- Configuration of one `tf.keras.layers.Dense` call. -/
structure DenseSpec where
  units : ℕ
  activation : String
  kernel_regularizer : Option String
  bias_regularizer : Option String
deriving DecidableEq, Inhabited

/-- One iteration of the loop in `get_hidden`: a dense layer followed by a
dropout layer. -/
structure Block where
  dense : DenseSpec
  dropout_rate : ℚ
deriving DecidableEq, Inhabited

/-- The loop of `get_hidden` (lines 32-43): `units` starts at
`first_layer_units` and is halved (`units //= 2`) after each block. -/
def hiddenBlocks (units : ℕ) (n : ℕ) (activation : String) (reg : Option String)
    (dropout : ℚ) : List Block :=
  match n with
  | 0 => []
  | Nat.succ m =>
    { dense := { units := units, activation := activation,
                 kernel_regularizer := reg, bias_regularizer := reg },
      dropout_rate := dropout } :: hiddenBlocks (units / 2) m activation reg dropout

/-- `get_hidden` (lines 18-43): the stack of dense+dropout blocks built for a
hyperparameter assignment. -/
def get_hidden (hp : HyperParameters) : List Block :=
  hiddenBlocks hp.first_layer_units hp.layers hp.activation
    (regularizerOf hp.regularization) hp.dropout

/-- The model assembled by `build_model` (lines 46-64): stacked scalar inputs,
the hidden blocks, the final `Dense(1, activation="sigmoid")`, an Adam
optimizer at `lr`, binary cross-entropy loss and accuracy/AUC metrics. -/
structure ModelSpec where
  stacked_inputs : List String
  hidden : List Block
  output : DenseSpec
  learning_rate : ℚ
  loss : String
  metrics : List String
deriving DecidableEq

/-- `build_model` (lines 46-64). -/
def build_model (hp : HyperParameters) (inputs : List String) : ModelSpec :=
  { stacked_inputs := inputs,
    hidden := get_hidden hp,
    output := { units := 1, activation := "sigmoid",
                kernel_regularizer := Option.none, bias_regularizer := Option.none },
    learning_rate := hp.lr,
    loss := "binary_crossentropy",
    metrics := ["accuracy", "auc"] }

/-- The sigmoid activation of the output layer, over the reals. -/
noncomputable def sigmoid (x : ℝ) : ℝ :=
  1 / (1 + Real.exp (-x))

lemma sigmoid_nonneg (x : ℝ) : 0 ≤ sigmoid x := by
  unfold sigmoid
  positivity

lemma sigmoid_le_one (x : ℝ) : sigmoid x ≤ 1 := by
  unfold sigmoid
  rw [div_le_one (by positivity)]
  have h := Real.exp_pos (-x)
  linarith

lemma hiddenBlocks_length (u n : ℕ) (a : String) (r : Option String) (d : ℚ) :
    (hiddenBlocks u n a r d).length = n := by
  induction n generalizing u with
  | zero => rfl
  | succ m ih => simp [hiddenBlocks, ih]

lemma hiddenBlocks_getD (u n i : ℕ) (a : String) (r : Option String) (d : ℚ)
    (hi : i < n) :
    (hiddenBlocks u n a r d).getD i default =
      { dense := { units := u / 2 ^ i, activation := a,
                   kernel_regularizer := r, bias_regularizer := r },
        dropout_rate := d } := by
  induction n generalizing u i with
  | zero => omega
  | succ m ih =>
    cases i with
    | zero => simp [hiddenBlocks]
    | succ j =>
      have h1 := ih (u / 2) j (by omega)
      simp only [hiddenBlocks, List.getD_cons_succ]
      rw [h1, Nat.div_div_eq_div_mul]
      congr 2
      rw [pow_succ, Nat.mul_comm]

lemma dropoutValues_eq :
    floatStepValues 0 (1/2) (1/10) = [0, 1/10, 1/5, 3/10, 2/5, 1/2] := by
  have hq : ((1/2 - 0) / (1/10) : ℚ) = 5 := by norm_num
  have h5 : Rat.floor (5 : ℚ) = 5 := by decide
  have h6 : Int.toNat 5 = 5 := rfl
  simp only [floatStepValues, hq, h5, h6]
  norm_num [List.range_succ, List.range_zero]

lemma first_layer_units_ge_32 {hp : HyperParameters} (hd : inDomain hp) :
    32 ≤ hp.first_layer_units := by
  rcases hd with ⟨_, _, hflu, _⟩
  rcases (by simpa using hflu : hp.first_layer_units = 32 ∨ hp.first_layer_units = 64 ∨
      hp.first_layer_units = 128 ∨ hp.first_layer_units = 512 ∨
      hp.first_layer_units = 1024 ∨ hp.first_layer_units = 2048) with
    h | h | h | h | h | h <;> omega

/-- C1: for every non-empty per-epoch validation AUC curve, the best epoch
selected by the Retrain-and-Select fit (`np.argmax(val_auc_per_epoch) + 1`,
train.py line 123) is the 1-indexed position of the first occurrence of the
curve's maximum: it is within 1..length, the value at it is an upper bound of
the whole curve, and every strictly earlier epoch has a strictly smaller
value; on the curve [0.5, 0.7, 0.9, 0.9, 0.6] the selected best epoch is 3. -/
theorem best_epoch_first_max (curve : List ℚ) (hne : curve ≠ []) :
    1 ≤ best_epoch curve ∧
    best_epoch curve ≤ curve.length ∧
    (∀ i < curve.length, nth curve i ≤ nth curve (best_epoch curve - 1)) ∧
    (∀ j < best_epoch curve - 1, nth curve j < nth curve (best_epoch curve - 1)) ∧
    best_epoch ((1:ℚ)/2 :: [7/10, 9/10, 9/10, 6/10]) = 3 := by
  have hmax : nth curve (argmax curve) = listMax curve := nth_argmax hne
  have hlt : argmax curve < curve.length := argmax_lt_length hne
  refine ⟨?_, ?_, ?_, ?_, ?_⟩
  · simp [best_epoch]
  · simp only [best_epoch]
    omega
  · intro i hi
    simp only [best_epoch, Nat.add_sub_cancel]
    rw [hmax]
    have hmem : nth curve i ∈ curve := by
      rw [nth, List.getD_eq_getElem curve 0 hi]
      exact List.getElem_mem hi
    exact le_listMax hmem
  · intro j hj
    simp only [best_epoch, Nat.add_sub_cancel] at hj ⊢
    rw [hmax]
    exact nth_lt_listMax_of_lt_argmax hj
  · norm_num [best_epoch, argmax, listMax]

/-- Witness for `best_epoch_first_max` at the spec's example curve. -/
theorem best_epoch_first_max_witness :
    ((1:ℚ)/2 :: [7/10, 9/10, 9/10, 6/10]) ≠ [] ∧
    best_epoch ((1:ℚ)/2 :: [7/10, 9/10, 9/10, 6/10]) = 3 :=
  ⟨by simp,
   (best_epoch_first_max ((1:ℚ)/2 :: [7/10, 9/10, 9/10, 6/10]) (by simp)).2.2.2.2⟩

/-! ### Ensemble wrapper (train.py lines 146-158)

A member model is modelled by its output function: for each input example it
produces the list of scalars of its last axis (a trained member outputs a
single scalar, i.e. a singleton list). -/

/-- `tf.reduce_mean(·, axis=-1)`: the arithmetic mean of the entries of the
last axis. -/
def reduce_mean (l : List ℚ) : ℚ :=
  l.sum / l.length

/-- The composed model built by `wrap_ensemble`: output concatenates the
members' outputs along the last axis and takes their mean; the model is
compiled with binary cross-entropy loss and accuracy/AUC metrics. -/
structure EnsembleModel (α : Type) where
  out : α → ℚ
  loss : String
  metrics : List String

/-- `wrap_ensemble` (lines 146-158). -/
def wrap_ensemble {α : Type} (models : List (α → List ℚ)) : EnsembleModel α :=
  { out := fun x => reduce_mean ((models.map (fun m => m x)).flatten),
    loss := "binary_crossentropy",
    metrics := ["accuracy", "auc"] }

/-! ### Tuner, callbacks and fit configurations (train.py lines 67-137) -/

/-- The datasets built in `train` and threaded into `train_model`. -/
inductive DataRef where
  | train
  | valid
  | trainAndValid
  | evalSet
deriving DecidableEq

/-- Configuration of a Keras callback, as constructed at lines 86-99. -/
inductive Callback where
  | reduceLROnPlateau (monitor : String) (factor : ℚ) (patience : ℕ)
  | earlyStopping (monitor : String) (patience : ℕ) (restore_best_weights : Bool)
deriving DecidableEq

/-- The `callbacks` list (lines 86-99), passed both to `tuner.search` and to
the Retrain-and-Select `model.fit`. -/
def callbacks : List Callback :=
  [Callback.reduceLROnPlateau "val_loss" (1/10) 1,
   Callback.earlyStopping "val_loss" 3 true]

/-- Arguments of one `fit`/`search` invocation. -/
structure FitConfig where
  data : DataRef
  validation_data : Option DataRef
  epochs : ℕ
  applies_class_weight : Bool
  callbacks : List Callback
deriving DecidableEq

/-- The fit performed for each search trial by `tuner.search` (lines 101-108). -/
def searchFit : FitConfig :=
  { data := DataRef.train, validation_data := some DataRef.valid, epochs := 10,
    applies_class_weight := true, callbacks := callbacks }

/-- The Retrain-and-Select fit `model.fit(...)` (lines 114-121). -/
def retrainFit : FitConfig :=
  { data := DataRef.train, validation_data := some DataRef.valid, epochs := 10,
    applies_class_weight := true, callbacks := callbacks }

/-- The fit of one ensemble member, `hypermodel.fit(...)` (lines 130-136). -/
def ensembleMemberFit (best_epoch_count : ℕ) : FitConfig :=
  { data := DataRef.trainAndValid, validation_data := Option.none,
    epochs := best_epoch_count, applies_class_weight := true, callbacks := [] }

/-- The scalar objective of the tuner (line 79). -/
structure Objective where
  name : String
  direction : String
deriving DecidableEq

/-- The `kt.Hyperband` construction arguments (lines 77-84). -/
structure HyperbandConfig where
  objective : Objective
  max_epochs : ℕ
  factor : ℕ
  project_name : String
deriving DecidableEq

/-- The tuner constructed in `train_model` (lines 77-84). -/
def tunerConfig : HyperbandConfig :=
  { objective := { name := "val_auc", direction := "max" },
    max_epochs := 10, factor := 3, project_name := "playground" }

/-- Modelled from the spec: `tuner.get_best_hyperparameters(num_trials=1)`
(line 110) is implemented inside `keras_tuner`, not in this repository; per
the spec, "the configuration with the highest recorded objective value across
all trials is returned; exactly one best configuration is selected". A trial
is a configuration together with its recorded objective value. -/
def get_best_hyperparameters {H : Type} (trials : List (H × ℚ)) : List H :=
  match trials with
  | [] => []
  | t :: ts => [((t :: ts).getD (argmax ((t :: ts).map Prod.snd)) t).1]

/-! ### Control flow of train_model (train.py lines 67-143)

The side effects of `train_model` are modelled as an event trace. The
`with tempfile.TemporaryDirectory(...)` block (line 75) follows Python
context-manager semantics: the directory is created on entry and removed when
the block exits, whether it exits normally or with an exception. Outcomes of
the fallible library calls (search, retrain fit, member fits) are parameters
of the model; an exception anywhere propagates to the caller uncaught. -/

/-- Observable steps of `train_model`, in execution order. -/
inductive Ev where
  | tempDirAcquire
  | tunerSearch
  | tempDirRelease
  | retrainFitEv
  | buildMember (i : ℕ)
  | fitMember (i : ℕ)
  | wrapEnsembleEv
deriving DecidableEq

/-- The member loop `for i in range(n)` (lines 126-137): each iteration
builds a fresh model at the best hyperparameters and fits it; an exception in
any iteration stops the loop and propagates (no partial list is returned). -/
def ensembleLoop {E M : Type} (fit : ℕ → Except E M) : ℕ → List Ev × Except E (List M)
  | 0 => ([], Except.ok [])
  | Nat.succ n =>
    match ensembleLoop fit n with
    | (evs, Except.error e) => (evs, Except.error e)
    | (evs, Except.ok ms) =>
      match fit n with
      | Except.error e => (evs ++ [Ev.buildMember n, Ev.fitMember n], Except.error e)
      | Except.ok m => (evs ++ [Ev.buildMember n, Ev.fitMember n], Except.ok (ms ++ [m]))

/-- The phases of `train_model` (lines 75-143): the tuner search inside the
temporary-directory scope, then the Retrain-and-Select fit, then the ensemble
loop over 3 members at `best_epoch` epochs, then the ensemble wrap. Returns
the event trace and either the pair (best epoch, members) or the first
propagated error. -/
def train_model_run {E H M : Type} (searchOutcome : Except E H)
    (retrainOutcome : H → Except E (List ℚ))
    (memberOutcome : H → ℕ → ℕ → Except E M) :
    List Ev × Except E (ℕ × List M) :=
  let searchEvs := [Ev.tempDirAcquire, Ev.tunerSearch, Ev.tempDirRelease]
  match searchOutcome with
  | Except.error e => (searchEvs, Except.error e)
  | Except.ok best_hps =>
    match retrainOutcome best_hps with
    | Except.error e => (searchEvs ++ [Ev.retrainFitEv], Except.error e)
    | Except.ok curve =>
      match ensembleLoop (memberOutcome best_hps (best_epoch curve)) 3 with
      | (evs, Except.error e) =>
        (searchEvs ++ [Ev.retrainFitEv] ++ evs, Except.error e)
      | (evs, Except.ok ms) =>
        (searchEvs ++ [Ev.retrainFitEv] ++ evs ++ [Ev.wrapEnsembleEv],
         Except.ok (best_epoch curve, ms))

/-! ### Dataset construction in train (train.py lines 184-216) -/

/-- Arguments of one `tf.data.experimental.make_csv_dataset` call. -/
structure CsvDatasetConfig where
  files : List String
  batch_size : ℕ
  label_name : String
  num_epochs : ℕ
  shuffle : Bool
  shuffle_buffer_size : Option ℕ
  shuffle_seed : Option ℕ
deriving DecidableEq

/-- `train_ds` (lines 184-192). -/
def train_ds_config (train_file : String) : CsvDatasetConfig :=
  { files := [train_file], batch_size := 64, label_name := "classification_target",
    num_epochs := 1, shuffle := true, shuffle_buffer_size := some 1000,
    shuffle_seed := some 17 }

/-- `valid_ds` (lines 194-200); no shuffle arguments are passed. -/
def valid_ds_config (validation_file : String) : CsvDatasetConfig :=
  { files := [validation_file], batch_size := 64,
    label_name := "classification_target", num_epochs := 1, shuffle := false,
    shuffle_buffer_size := Option.none, shuffle_seed := Option.none }

/-- `train_and_valid_ds` (lines 201-209). -/
def train_and_valid_ds_config (train_file validation_file : String) : CsvDatasetConfig :=
  { files := [train_file, validation_file], batch_size := 64,
    label_name := "classification_target", num_epochs := 1, shuffle := true,
    shuffle_buffer_size := some 2000, shuffle_seed := some 17 }

/-- `eval_ds` (lines 210-216); no shuffle arguments are passed. -/
def eval_ds_config (evaluation_file : String) : CsvDatasetConfig :=
  { files := [evaluation_file], batch_size := 64,
    label_name := "classification_target", num_epochs := 1, shuffle := false,
    shuffle_buffer_size := Option.none, shuffle_seed := Option.none }

/-- The train and train+validation streams are shuffled with seed 17; the
validation and evaluation streams are unshuffled. (Supporting fact; the
spec's reproducibility consequence additionally depends on unseeded weight
initialization inside TensorFlow and is not settled here.) -/
lemma dataset_shuffle_seeds (t v e : String) :
    (train_ds_config t).shuffle = true ∧
    (train_ds_config t).shuffle_seed = some 17 ∧
    (train_and_valid_ds_config t v).shuffle = true ∧
    (train_and_valid_ds_config t v).shuffle_seed = some 17 ∧
    (valid_ds_config v).shuffle = false ∧
    (eval_ds_config e).shuffle = false :=
  ⟨rfl, rfl, rfl, rfl, rfl, rfl⟩

lemma flatten_map_singleton {α β : Type} (l : List α) (g : α → β) :
    (l.map (fun a => [g a])).flatten = l.map g := by
  induction l with
  | nil => rfl
  | cons a t ih => simp [ih]

/-- C2: the model produced by `wrap_ensemble` from members with scalar
outputs computes, on each input, exactly the arithmetic mean of the members'
scalar outputs (concatenation along the last axis followed by `reduce_mean`);
for three members outputting the constants 0.2, 0.4, 0.6 the wrapped ensemble
outputs exactly 0.4. -/
theorem wrap_ensemble_mean {α : Type} (members : List (α → ℚ)) (x : α) :
    (wrap_ensemble (members.map (fun f y => [f y]))).out x =
      (members.map (fun f => f x)).sum / members.length ∧
    (wrap_ensemble ([fun _ => [(1:ℚ)/5], fun _ => [2/5], fun _ => [3/5]] :
        List (α → List ℚ))).out x = 2/5 := by
  constructor
  · simp only [wrap_ensemble, reduce_mean, List.map_map]
    have hcomp : ((fun m => m x) ∘ fun (f : α → ℚ) (y : α) => [f y]) =
        fun f => [f x] := rfl
    rw [hcomp, flatten_map_singleton members (fun f => f x)]
    simp
  · norm_num [wrap_ensemble, reduce_mean]

/-- C4: the sampled hyperparameter space has exactly six dimensions:
`layers` an integer 1..3, `first_layer_units` from {32,64,128,512,1024,2048},
`dropout` a float 0.0..0.5 in steps of 0.1 (so exactly the six values
0, 0.1, 0.2, 0.3, 0.4, 0.5), `activation` from {relu,tanh,sigmoid,elu,selu},
`regularization` from {l1,l2,l1_l2,none} with "none" interpreted as no
regularization applied, and `lr` a float log-uniform between 1e-5 and 1e-2. -/
theorem search_space_domains :
    searchSpace.length = 6 ∧
    searchSpace.map Prod.fst =
      ["layers", "first_layer_units", "dropout", "activation", "regularization", "lr"] ∧
    searchSpace =
      [("layers", HPDomain.intRange 1 3),
       ("first_layer_units", HPDomain.choiceNat [32, 64, 128, 512, 1024, 2048]),
       ("dropout", HPDomain.floatStep 0 (1/2) (1/10)),
       ("activation", HPDomain.choiceStr ["relu", "tanh", "sigmoid", "elu", "selu"]),
       ("regularization", HPDomain.choiceStr ["l1", "l2", "l1_l2", "none"]),
       ("lr", HPDomain.floatLog (1/100000) (1/100))] ∧
    floatStepValues 0 (1/2) (1/10) = [0, 1/10, 1/5, 3/10, 2/5, 1/2] ∧
    regularizerOf "none" = Option.none ∧
    regularizerOf "l1" = some "l1" ∧
    regularizerOf "l2" = some "l2" ∧
    regularizerOf "l1_l2" = some "l1_l2" := by
  refine ⟨rfl, rfl, rfl, dropoutValues_eq, ?_, ?_, ?_, ?_⟩ <;> simp [regularizerOf]

/-- C3: for every configuration in the declared domains and every non-empty
feature set, the built model stacks all scalar inputs, applies `layers`
dense+dropout blocks whose dense layer carries the configured activation and
the configured regularizer on both weights and biases, with width
`first_layer_units / 2 ^ i` at block `i` (0-indexed; integer halving, no
re-clamping), and ends in a single dense sigmoid unit whose activation maps
into [0,1]; with `layers = 1` the only width is `first_layer_units`, and with
`layers = 3`, `first_layer_units = 32` the widths are 32, 16, 8. -/
theorem build_model_architecture (hp : HyperParameters) (hd : inDomain hp)
    (inputs : List String) (hne : inputs ≠ []) :
    (build_model hp inputs).stacked_inputs = inputs ∧
    (build_model hp inputs).hidden.length = hp.layers ∧
    (∀ i < hp.layers, (build_model hp inputs).hidden.getD i default =
      { dense := { units := hp.first_layer_units / 2 ^ i,
                   activation := hp.activation,
                   kernel_regularizer := regularizerOf hp.regularization,
                   bias_regularizer := regularizerOf hp.regularization },
        dropout_rate := hp.dropout }) ∧
    (build_model hp inputs).output =
      { units := 1, activation := "sigmoid",
        kernel_regularizer := Option.none, bias_regularizer := Option.none } ∧
    (∀ x : ℝ, 0 ≤ sigmoid x ∧ sigmoid x ≤ 1) ∧
    (hp.layers = 1 →
      (build_model hp inputs).hidden.map (fun b => b.dense.units) =
        [hp.first_layer_units]) ∧
    (hp.layers = 3 → hp.first_layer_units = 32 →
      (build_model hp inputs).hidden.map (fun b => b.dense.units) = [32, 16, 8]) := by
  refine ⟨rfl, ?_, ?_, rfl, fun x => ⟨sigmoid_nonneg x, sigmoid_le_one x⟩, ?_, ?_⟩
  · simp [build_model, get_hidden, hiddenBlocks_length]
  · intro i hi
    exact hiddenBlocks_getD _ _ _ _ _ _ hi
  · intro h1
    simp [build_model, get_hidden, h1, hiddenBlocks]
  · intro h1 h2
    simp [build_model, get_hidden, h1, h2, hiddenBlocks]

/-- Witness for `build_model_architecture` at a concrete in-domain
configuration and feature set. -/
theorem build_model_architecture_witness :
    (build_model ⟨1, 64, 0, "relu", "l2", 1/1000⟩ ["f0", "f1"]).stacked_inputs
        = ["f0", "f1"] ∧
    (build_model ⟨1, 64, 0, "relu", "l2", 1/1000⟩ ["f0", "f1"]).hidden.length = 1 ∧
    (∀ i < (1:ℕ), (build_model ⟨1, 64, 0, "relu", "l2", 1/1000⟩ ["f0", "f1"]).hidden.getD i default =
      { dense := { units := 64 / 2 ^ i,
                   activation := "relu",
                   kernel_regularizer := regularizerOf "l2",
                   bias_regularizer := regularizerOf "l2" },
        dropout_rate := 0 }) ∧
    (build_model ⟨1, 64, 0, "relu", "l2", 1/1000⟩ ["f0", "f1"]).output =
      { units := 1, activation := "sigmoid",
        kernel_regularizer := Option.none, bias_regularizer := Option.none } ∧
    (∀ x : ℝ, 0 ≤ sigmoid x ∧ sigmoid x ≤ 1) ∧
    ((1:ℕ) = 1 →
      (build_model ⟨1, 64, 0, "relu", "l2", 1/1000⟩ ["f0", "f1"]).hidden.map
        (fun b => b.dense.units) = [64]) ∧
    ((1:ℕ) = 3 → (64:ℕ) = 32 →
      (build_model ⟨1, 64, 0, "relu", "l2", 1/1000⟩ ["f0", "f1"]).hidden.map
        (fun b => b.dense.units) = [32, 16, 8]) :=
  build_model_architecture ⟨1, 64, 0, "relu", "l2", 1/1000⟩
    (by
      refine ⟨by norm_num, by norm_num, by simp, ?_, by simp, by simp, by norm_num, by norm_num⟩
      rw [dropoutValues_eq]
      simp)
    ["f0", "f1"] (by simp)

/-- C10: for every configuration in the declared sampling domains, the width
of hidden layer `i` (1-indexed) is `first_layer_units / 2 ^ (i-1)` by integer
division, and since `first_layer_units ≥ 32` and `layers ≤ 3` every hidden
width is at least 8 (in particular positive), so the zero-width degenerate
case is unreachable for sampler-producible configurations. -/
theorem hidden_widths_at_least_eight (hp : HyperParameters) (hd : inDomain hp) :
    ∀ i, 1 ≤ i → i ≤ hp.layers →
      ((get_hidden hp).getD (i - 1) default).dense.units =
        hp.first_layer_units / 2 ^ (i - 1) ∧
      8 ≤ hp.first_layer_units / 2 ^ (i - 1) ∧
      0 < ((get_hidden hp).getD (i - 1) default).dense.units := by
  intro i h1 h2
  have hl3 : hp.layers ≤ 3 := hd.2.1
  have h32 : 32 ≤ hp.first_layer_units := first_layer_units_ge_32 hd
  have hgd := hiddenBlocks_getD hp.first_layer_units hp.layers (i - 1)
    hp.activation (regularizerOf hp.regularization) hp.dropout (by omega)
  have hunits : ((get_hidden hp).getD (i - 1) default).dense.units =
      hp.first_layer_units / 2 ^ (i - 1) := by
    rw [get_hidden, hgd]
  have hpow : (2:ℕ) ^ (i - 1) ≤ 4 := by
    have hle : i - 1 ≤ 2 := by omega
    calc (2:ℕ) ^ (i - 1) ≤ 2 ^ 2 := Nat.pow_le_pow_right (by norm_num) hle
    _ = 4 := rfl
  have hbound : 8 ≤ hp.first_layer_units / 2 ^ (i - 1) := by
    calc (8:ℕ) = 32 / 4 := rfl
    _ ≤ hp.first_layer_units / 4 := Nat.div_le_div_right h32
    _ ≤ hp.first_layer_units / 2 ^ (i - 1) := Nat.div_le_div_left hpow (by norm_num)
  exact ⟨hunits, hbound, by omega⟩

/-- Witness for `hidden_widths_at_least_eight` at the boundary configuration
`layers = 3`, `first_layer_units = 32`, layer `i = 3`. -/
theorem hidden_widths_at_least_eight_witness :
    ((get_hidden ⟨3, 32, 0, "relu", "none", 1/100⟩).getD 2 default).dense.units
        = 32 / 2 ^ 2 ∧
    8 ≤ 32 / 2 ^ (2:ℕ) ∧
    0 < ((get_hidden ⟨3, 32, 0, "relu", "none", 1/100⟩).getD 2 default).dense.units :=
  hidden_widths_at_least_eight ⟨3, 32, 0, "relu", "none", 1/100⟩
    (by
      refine ⟨by norm_num, by norm_num, by simp, ?_, by simp, by simp, by norm_num, by norm_num⟩
      rw [dropoutValues_eq]
      simp)
    3 (by norm_num) (by norm_num)

lemma ensembleLoop_no_temp {E M : Type} (fit : ℕ → Except E M) (n : ℕ) :
    Ev.tempDirRelease ∉ (ensembleLoop fit n).1 ∧
    Ev.tempDirAcquire ∉ (ensembleLoop fit n).1 := by
  induction n with
  | zero => simp [ensembleLoop]
  | succ n ih =>
    simp only [ensembleLoop]
    rcases hl : ensembleLoop fit n with ⟨evs, r⟩
    rw [hl] at ih
    cases r with
    | error e => simpa using ih
    | ok ms =>
      cases hf : fit n with
      | error e => simpa using ih
      | ok m => simpa using ih

/-- C5: the search controller is a Hyperband successive-halving search with
reduction factor 3 and a maximum per-trial budget of 10 epochs, scoring
trials by validation AUC as a single maximized objective; it returns exactly
one best configuration, one whose recorded objective value is maximal across
all trials. -/
theorem search_selects_single_best {H : Type} (trials : List (H × ℚ))
    (hne : trials ≠ []) :
    tunerConfig.factor = 3 ∧
    tunerConfig.max_epochs = 10 ∧
    tunerConfig.objective = { name := "val_auc", direction := "max" } ∧
    (get_best_hyperparameters trials).length = 1 ∧
    ∃ k, ∃ hk : k < trials.length,
      get_best_hyperparameters trials = [(trials.get ⟨k, hk⟩).1] ∧
      ∀ j, ∀ hj : j < trials.length,
        (trials.get ⟨j, hj⟩).2 ≤ (trials.get ⟨k, hk⟩).2 := by
  match trials with
  | [] => exact absurd rfl hne
  | t :: ts =>
    have hsne : (t :: ts).map Prod.snd ≠ [] := by simp
    have hkarg := argmax_lt_length hsne
    have hk : argmax ((t :: ts).map Prod.snd) < (t :: ts).length := by
      simpa using hkarg
    refine ⟨rfl, rfl, rfl, rfl, argmax ((t :: ts).map Prod.snd), hk, ?_, ?_⟩
    · simp only [get_best_hyperparameters]
      congr 2
      rw [List.getD_eq_getElem _ _ hk, List.get_eq_getElem]
    · intro j hj
      have hmax := nth_argmax hsne
      have hnth : ∀ i, ∀ hi : i < (t :: ts).length,
          nth ((t :: ts).map Prod.snd) i = ((t :: ts).get ⟨i, hi⟩).2 := by
        intro i hi
        rw [nth, List.getD_eq_getElem _ _ (by simpa using hi), List.getElem_map,
          List.get_eq_getElem]
      have hmem : nth ((t :: ts).map Prod.snd) j ∈ (t :: ts).map Prod.snd := by
        rw [nth, List.getD_eq_getElem _ _ (by simpa using hj)]
        exact List.getElem_mem _
      have hle := le_listMax hmem
      rw [hnth j hj] at hle
      rw [← hnth _ hk, hmax]
      exact hle

/-- Witness for `search_selects_single_best` on a concrete two-trial list. -/
theorem search_selects_single_best_witness :
    tunerConfig.factor = 3 ∧
    tunerConfig.max_epochs = 10 ∧
    tunerConfig.objective = { name := "val_auc", direction := "max" } ∧
    (get_best_hyperparameters [((0:ℕ), (1:ℚ)), (1, 2)]).length = 1 ∧
    ∃ k, ∃ hk : k < ([((0:ℕ), (1:ℚ)), (1, 2)]).length,
      get_best_hyperparameters [((0:ℕ), (1:ℚ)), (1, 2)] =
        [(([((0:ℕ), (1:ℚ)), (1, 2)]).get ⟨k, hk⟩).1] ∧
      ∀ j, ∀ hj : j < ([((0:ℕ), (1:ℚ)), (1, 2)]).length,
        (([((0:ℕ), (1:ℚ)), (1, 2)]).get ⟨j, hj⟩).2 ≤
          (([((0:ℕ), (1:ℚ)), (1, 2)]).get ⟨k, hk⟩).2 :=
  search_selects_single_best [((0:ℕ), (1:ℚ)), (1, 2)] (by simp)

/-- C6: the search-trial fit and the Retrain-and-Select fit use the same
callback list, which holds exactly a reduce-LR-on-plateau callback (monitor
val_loss, factor 0.1, patience 1) and an early-stopping callback (monitor
val_loss, patience 3, restoring best weights); both fits train on the train
split, validate on the validation split, apply class weights, and run for up
to 10 epochs. -/
theorem fits_share_callbacks :
    searchFit = retrainFit ∧
    searchFit.callbacks =
      [Callback.reduceLROnPlateau "val_loss" (1/10) 1,
       Callback.earlyStopping "val_loss" 3 true] ∧
    retrainFit.callbacks =
      [Callback.reduceLROnPlateau "val_loss" (1/10) 1,
       Callback.earlyStopping "val_loss" 3 true] ∧
    searchFit.callbacks.length = 2 ∧
    searchFit.data = DataRef.train ∧
    searchFit.validation_data = some DataRef.valid ∧
    searchFit.applies_class_weight = true ∧
    searchFit.epochs = 10 ∧
    retrainFit.data = DataRef.train ∧
    retrainFit.validation_data = some DataRef.valid ∧
    retrainFit.applies_class_weight = true ∧
    retrainFit.epochs = 10 :=
  ⟨rfl, rfl, rfl, rfl, rfl, rfl, rfl, rfl, rfl, rfl, rfl, rfl⟩

/-- C7: the ensemble trainer runs exactly 3 iterations; each iteration builds
a fresh model at the best configuration and fits it on the combined
train+validation data for exactly `best_epoch` epochs with class weights and
an empty callback list; members are collected in insertion order; if any
member's training fails, the loop propagates the error and no partial
ensemble is returned. -/
theorem ensemble_three_members {E M : Type} (fit : ℕ → Except E M)
    (ms : ℕ → M) (e : E) :
    ((∀ i < 3, fit i = Except.ok (ms i)) →
      (ensembleLoop fit 3).2 = Except.ok [ms 0, ms 1, ms 2] ∧
      (ensembleLoop fit 3).1 =
        [Ev.buildMember 0, Ev.fitMember 0, Ev.buildMember 1, Ev.fitMember 1,
         Ev.buildMember 2, Ev.fitMember 2]) ∧
    (∀ j < 3, fit j = Except.error e → (∀ i < j, fit i = Except.ok (ms i)) →
      (ensembleLoop fit 3).2 = Except.error e) ∧
    (∀ bec, (ensembleMemberFit bec).epochs = bec ∧
      (ensembleMemberFit bec).callbacks = [] ∧
      (ensembleMemberFit bec).data = DataRef.trainAndValid ∧
      (ensembleMemberFit bec).validation_data = Option.none ∧
      (ensembleMemberFit bec).applies_class_weight = true) := by
  refine ⟨?_, ?_, fun bec => ⟨rfl, rfl, rfl, rfl, rfl⟩⟩
  · intro h
    have h0 := h 0 (by norm_num)
    have h1 := h 1 (by norm_num)
    have h2 := h 2 (by norm_num)
    constructor <;> simp [ensembleLoop, h0, h1, h2]
  · intro j hj hje hok
    interval_cases j
    · simp [ensembleLoop, hje]
    · have h0 := hok 0 (by norm_num)
      simp [ensembleLoop, h0, hje]
    · have h0 := hok 0 (by norm_num)
      have h1 := hok 1 (by norm_num)
      simp [ensembleLoop, h0, h1, hje]

/-- Witness for `ensemble_three_members`: all three member fits succeed. -/
theorem ensemble_three_members_witness :
    (ensembleLoop (fun i => (Except.ok i : Except Unit ℕ)) 3).2 =
      Except.ok [0, 1, 2] ∧
    (ensembleLoop (fun i => (Except.ok i : Except Unit ℕ)) 3).1 =
      [Ev.buildMember 0, Ev.fitMember 0, Ev.buildMember 1, Ev.fitMember 1,
       Ev.buildMember 2, Ev.fitMember 2] :=
  (ensemble_three_members (fun i => (Except.ok i : Except Unit ℕ))
    (fun i => i) ()).1 (fun i _ => rfl)

/-- C8: on every execution path of `train_model` — search success, search
failure, retrain failure, member failure — the temporary workspace is
acquired at the start of the search phase and released exactly when that
scope exits: the trace starts with acquire, search, release, and no event
after the release (retrain, member builds/fits, wrap) touches the temporary
directory again. -/
theorem temp_workspace_released {E H M : Type} (searchOutcome : Except E H)
    (retrainOutcome : H → Except E (List ℚ))
    (memberOutcome : H → ℕ → ℕ → Except E M) :
    ∃ rest : List Ev,
      (train_model_run searchOutcome retrainOutcome memberOutcome).1 =
        [Ev.tempDirAcquire, Ev.tunerSearch, Ev.tempDirRelease] ++ rest ∧
      Ev.tempDirRelease ∉ rest ∧
      Ev.tempDirAcquire ∉ rest := by
  cases searchOutcome with
  | error e => exact ⟨[], by simp [train_model_run], by simp, by simp⟩
  | ok hps =>
    cases hr : retrainOutcome hps with
    | error e =>
      exact ⟨[Ev.retrainFitEv], by simp [train_model_run, hr], by simp, by simp⟩
    | ok curve =>
      rcases hl : ensembleLoop (memberOutcome hps (best_epoch curve)) 3 with ⟨evs, r⟩
      have hn := ensembleLoop_no_temp (memberOutcome hps (best_epoch curve)) 3
      rw [hl] at hn
      cases r with
      | error e =>
        refine ⟨[Ev.retrainFitEv] ++ evs, ?_, ?_, ?_⟩
        · simp [train_model_run, hr, hl]
        · simp [hn.1]
        · simp [hn.2]
      | ok msr =>
        refine ⟨[Ev.retrainFitEv] ++ evs ++ [Ev.wrapEnsembleEv], ?_, ?_, ?_⟩
        · simp [train_model_run, hr, hl]
        · simp [hn.1]
        · simp [hn.2]

end Playground
